import Mathlib

/-!
Shallow embedding of the WebSocket connection-lifecycle hook of
`src/frontend/src/hooks/useWebSocket.ts` (stellar-insights).

The hook's mutable refs and React state cells become fields of `HookState`;
the transport plus the JavaScript timer tables become `Env`; callback
invocations (`onConnect`, `onDisconnect`, `onError`, `onMessage`) are logged
in `CallbackLog`.  Each operation of the hook (`handleMessage`, `connect`,
`scheduleReconnect`, `disconnect`, the manual `reconnect`, and the body of the
1000 ms check interval) is translated into a pure function on `World`.
Inbound messages are delivered by firing, in registration order, every
listener the hook registered on the transport.  The transport's own
`connect()` is modelled as non-throwing (per its contract it fails into the
error-listener path rather than throwing); its asynchronous effects are
separate environment events (`envOpen`, `envDrop`).
-/

set_option autoImplicit false

namespace StellarWS

/-- `ConnectionState` enum of the hook. -/
inductive ConnectionState where
  | DISCONNECTED
  | CONNECTING
  | CONNECTED
  | RECONNECTING
deriving DecidableEq, Repr

/-- `WsMessage`: discriminated union flattened to a tag plus the two payload
fields the hook reads (`connection_id` on `connected` messages, `message` on
`error` messages). -/
structure WsMessage where
  type : String
  connection_id : String
  message : String
deriving DecidableEq, Repr

/-- One listener registration made by the hook on the transport:
`ws.on(t, handleMessage)`, `ws.onAny(handleMessage)`, or the always-added
`ws.on('error', ...)` bookkeeping handler of lines 174-178. -/
inductive Listener where
  | onType (t : String)
  | onAnyL
  | errorHandler
deriving DecidableEq, Repr

/-- An armed reconnect timeout (`setTimeout` in `scheduleReconnect`):
its JavaScript handle and the delay it was armed with. -/
structure Timer where
  id : Nat
  delay : ℚ
deriving DecidableEq, Repr

/-- The hook's refs and React state cells. -/
structure HookState where
  isConnected : Bool
  connectionId : Option String
  lastMessage : Option WsMessage
  connectionState : ConnectionState
  listeners : List Listener
  intervalIds : List Nat
  isConnecting : Bool
  reconnectTimeout : Option Nat
  reconnectAttempts : Nat
  shouldReconnect : Bool
deriving DecidableEq, Repr

/-- The world outside the hook: transport truth, the timer tables, and
counters of transport calls. `retryTimers` are live `scheduleReconnect`
timeouts, `settleTimers` the delays of live 100 ms settle timeouts armed by
the manual `reconnect`, `liveIntervals` the live check intervals. -/
structure Env where
  wsConnected : Bool
  wsConnectionId : Option String
  retryTimers : List Timer
  settleTimers : List ℚ
  liveIntervals : List Nat
  nextId : Nat
  connectCalls : Nat
  wsDisconnectCalls : Nat
deriving DecidableEq, Repr

/-- Log of user-callback invocations. -/
structure CallbackLog where
  onConnectCalls : Nat
  onDisconnectCalls : Nat
  onErrorCalls : List String
  onMessageCalls : List WsMessage
deriving DecidableEq, Repr

structure World where
  hook : HookState
  env : Env
  log : CallbackLog
deriving DecidableEq, Repr

/-- Hook options relevant to the modelled behaviour. -/
structure Options where
  messageTypes : Option (List String)
  maxReconnectAttempts : Option Nat
deriving DecidableEq, Repr

/-- `wsConfig.maxReconnectAttempts || 5`: absent or 0 (falsy) gives 5. -/
def maxAttempts (opts : Options) : Nat :=
  match opts.maxReconnectAttempts with
  | none => 5
  | some 0 => 5
  | some n => n

def defaultOpts : Options :=
  { messageTypes := none, maxReconnectAttempts := none }

/-- `handleMessage` (lines 115-138): store `lastMessage`; on tag `connected`
perform the connected transition and invoke `onConnect`; on tag `error`
invoke `onError` with the carried text; always invoke `onMessage` last. -/
def handleMessageFn (m : WsMessage) (w : World) : World :=
  let w1 : World :=
    { w with hook := { w.hook with lastMessage := some m } }
  let w2 : World :=
    if m.type = "connected" then
      { w1 with
        hook := { w1.hook with
          isConnected := true
          connectionId := some m.connection_id
          connectionState := ConnectionState.CONNECTED
          isConnecting := false
          reconnectAttempts := 0 }
        log := { w1.log with onConnectCalls := w1.log.onConnectCalls + 1 } }
    else w1
  let w3 : World :=
    if m.type = "error" then
      { w2 with
        log := { w2.log with onErrorCalls := w2.log.onErrorCalls ++ [m.message] } }
    else w2
  { w3 with
    log := { w3.log with onMessageCalls := w3.log.onMessageCalls ++ [m] } }

/-- The listeners a `connect` call registers (lines 161-178): one per entry
of a non-empty `messageTypes` allow-list, otherwise a single wildcard
listener; plus, always, the error bookkeeping handler. -/
def subscribeList (opts : Options) : List Listener :=
  (match opts.messageTypes with
   | some l => if l.length > 0 then l.map Listener.onType else [Listener.onAnyL]
   | none => [Listener.onAnyL]) ++ [Listener.errorHandler]

/-- `connect` (lines 141-224): early-return while the in-flight flag is set
or the transport reports connected; otherwise set the flag, enter
`CONNECTING`, dispose all prior subscriptions (listeners and the old check
interval), register fresh listeners, call the transport's `connect`, and arm
a fresh 1000 ms check interval. -/
def connectFn (opts : Options) (w : World) : World :=
  if w.hook.isConnecting then w
  else if w.env.wsConnected then w
  else
    let env1 : Env :=
      { w.env with
        liveIntervals := w.env.liveIntervals.filter (fun i => i ∉ w.hook.intervalIds) }
    let iid : Nat := env1.nextId
    { w with
      hook := { w.hook with
        isConnecting := true
        connectionState := ConnectionState.CONNECTING
        listeners := subscribeList opts
        intervalIds := [iid] }
      env := { env1 with
        connectCalls := env1.connectCalls + 1
        liveIntervals := env1.liveIntervals ++ [iid]
        nextId := env1.nextId + 1 } }

/-- Effect of one registered listener on a delivered message: a type-scoped
or wildcard listener runs `handleMessage`; the bookkeeping error handler
(lines 174-177) clears the in-flight flag and forces `DISCONNECTED`. -/
def fireListener (m : WsMessage) (w : World) (l : Listener) : World :=
  match l with
  | Listener.onType t => if m.type = t then handleMessageFn m w else w
  | Listener.onAnyL => handleMessageFn m w
  | Listener.errorHandler =>
      if m.type = "error" then
        { w with hook := { w.hook with
            isConnecting := false
            connectionState := ConnectionState.DISCONNECTED } }
      else w

/-- Delivery of one inbound transport message: every listener the hook has
registered fires in registration order. -/
def deliver (m : WsMessage) (w : World) : World :=
  w.hook.listeners.foldl (fireListener m) w

/-- `clearTimeout(reconnectTimeoutRef.current)` guarded by the null check of
lines 229-232 / 267-270. -/
def clearReconnectTimeout (w : World) : World :=
  match w.hook.reconnectTimeout with
  | none => w
  | some id =>
    { w with
      hook := { w.hook with reconnectTimeout := none }
      env := { w.env with
        retryTimers := w.env.retryTimers.filter (fun t => t.id ≠ id) } }

/-- The delay of lines 248-251: `min(1000 * 2^(attempt-1) + jitter, 30000)`,
where `attempt` is the just-incremented attempt counter and `jitter` stands
for `Math.random() * 1000`. -/
def computeDelay (attempt : Nat) (jitter : ℚ) : ℚ :=
  min (1000 * 2 ^ (attempt - 1) + jitter) 30000

/-- The retry decision of lines 207-210: auto-reconnect enabled and the
attempt counter strictly below the maximum. -/
def shouldRetry (opts : Options) (w : World) : Bool :=
  w.hook.shouldReconnect && decide (w.hook.reconnectAttempts < maxAttempts opts)

/-- `scheduleReconnect` (lines 227-257): clear any existing retry timeout;
if auto-reconnect is off or the counter has reached the maximum, go to
`DISCONNECTED`, clear the in-flight flag and stop; otherwise increment the
counter, enter `RECONNECTING`, and arm a timeout with the backoff delay. -/
def scheduleReconnect (opts : Options) (jitter : ℚ) (w : World) : World :=
  let w1 : World := clearReconnectTimeout w
  if w1.hook.shouldReconnect = false ∨ maxAttempts opts ≤ w1.hook.reconnectAttempts then
    { w1 with hook := { w1.hook with
        connectionState := ConnectionState.DISCONNECTED
        isConnecting := false } }
  else
    let a : Nat := w1.hook.reconnectAttempts + 1
    let tid : Nat := w1.env.nextId
    { w1 with
      hook := { w1.hook with
        reconnectAttempts := a
        connectionState := ConnectionState.RECONNECTING
        reconnectTimeout := some tid }
      env := { w1.env with
        retryTimers := w1.env.retryTimers ++ [{ id := tid, delay := computeDelay a jitter }]
        nextId := w1.env.nextId + 1 } }

/-- Body of the 1000 ms check interval (lines 190-218). `snap` is the
`connectionState` value captured by the interval's closure when `connect`
created it. `jitter` feeds a possible `scheduleReconnect`. -/
def pollTick (opts : Options) (snap : ConnectionState) (jitter : ℚ) (w : World) : World :=
  let connected : Bool := w.env.wsConnected
  let w1 : World := { w with hook := { w.hook with isConnected := connected } }
  if connected then
    let w2 : World :=
      { w1 with hook := { w1.hook with connectionId := w1.env.wsConnectionId } }
    if snap ≠ ConnectionState.CONNECTED then
      { w2 with hook := { w2.hook with
          connectionState := ConnectionState.CONNECTED
          isConnecting := false } }
    else w2
  else
    let w2 : World := { w1 with hook := { w1.hook with connectionId := none } }
    if snap = ConnectionState.CONNECTED ∨ snap = ConnectionState.CONNECTING then
      if shouldRetry opts w2 then
        scheduleReconnect opts jitter w2
      else
        { w2 with hook := { w2.hook with
            connectionState := ConnectionState.DISCONNECTED
            isConnecting := false } }
    else w2

/-- `disconnect` (lines 260-285): suppress auto-reconnect, clear the
in-flight flag, cancel a pending retry timeout, dispose every subscription
(listeners and check interval), close the transport, reset the observable
state and the attempt counter, and invoke `onDisconnect`. -/
def disconnectFn (w : World) : World :=
  let w1 : World :=
    clearReconnectTimeout
      { w with hook := { w.hook with shouldReconnect := false, isConnecting := false } }
  { w1 with
    hook := { w1.hook with
      listeners := []
      intervalIds := []
      isConnected := false
      connectionId := none
      connectionState := ConnectionState.DISCONNECTED
      reconnectAttempts := 0 }
    env := { w1.env with
      liveIntervals := w1.env.liveIntervals.filter (fun i => i ∉ w1.hook.intervalIds)
      wsDisconnectCalls := w1.env.wsDisconnectCalls + 1
      wsConnected := false
      wsConnectionId := none }
    log := { w1.log with onDisconnectCalls := w1.log.onDisconnectCalls + 1 } }

/-- The manual `reconnect` (lines 288-300), exposed to callers as `connect`:
disconnect, reset the attempt counter, re-enable auto-reconnect, and arm an
untracked 100 ms settle timeout whose callback is `connect`. -/
def reconnectFn (w : World) : World :=
  let w1 : World := disconnectFn w
  { w1 with
    hook := { w1.hook with reconnectAttempts := 0, shouldReconnect := true }
    env := { w1.env with settleTimers := w1.env.settleTimers ++ [100] } }

/-- A live retry timeout fires (callback of lines 253-256): the timer leaves
the environment, the in-flight flag is cleared, and `connect` runs. The
hook's `reconnectTimeoutRef` is deliberately left stale, as in the source. -/
def retryFire (opts : Options) (w : World) : World :=
  match w.env.retryTimers with
  | [] => w
  | _ :: rest =>
    connectFn opts
      { w with
        hook := { w.hook with isConnecting := false }
        env := { w.env with retryTimers := rest } }

/-- A live settle timeout fires (callback of lines 297-299): `connect`. -/
def settleFire (opts : Options) (w : World) : World :=
  match w.env.settleTimers with
  | [] => w
  | _ :: rest =>
    connectFn opts { w with env := { w.env with settleTimers := rest } }

/-- The transport finishes opening: its truth becomes connected. -/
def envOpen (cid : String) (w : World) : World :=
  { w with env := { w.env with wsConnected := true, wsConnectionId := some cid } }

/-- The transport drops: its truth becomes disconnected. -/
def envDrop (w : World) : World :=
  { w with env := { w.env with wsConnected := false, wsConnectionId := none } }

/-- Events that drive the system. -/
inductive Event where
  | deliverMsg (m : WsMessage)
  | connectCall
  | poll (snap : ConnectionState) (jitter : ℚ)
  | retryTimerFires
  | settleTimerFires
  | disconnectCall
  | reconnectCall
  | transportOpens (cid : String)
  | transportDrops

def stepFn (opts : Options) (e : Event) (w : World) : World :=
  match e with
  | Event.deliverMsg m => deliver m w
  | Event.connectCall => connectFn opts w
  | Event.poll snap jitter => pollTick opts snap jitter w
  | Event.retryTimerFires => retryFire opts w
  | Event.settleTimerFires => settleFire opts w
  | Event.disconnectCall => disconnectFn w
  | Event.reconnectCall => reconnectFn w
  | Event.transportOpens cid => envOpen cid w
  | Event.transportDrops => envDrop w

/-- Initial world: the hook's initial `useState`/`useRef` values, an idle
transport, no timers, no calls logged. -/
def initWorld : World :=
  { hook := { isConnected := false, connectionId := none, lastMessage := none,
              connectionState := ConnectionState.DISCONNECTED, listeners := [],
              intervalIds := [], isConnecting := false, reconnectTimeout := none,
              reconnectAttempts := 0, shouldReconnect := true },
    env := { wsConnected := false, wsConnectionId := none, retryTimers := [],
             settleTimers := [], liveIntervals := [], nextId := 0,
             connectCalls := 0, wsDisconnectCalls := 0 },
    log := { onConnectCalls := 0, onDisconnectCalls := 0, onErrorCalls := [],
             onMessageCalls := [] } }

/-- Worlds reachable from the initial world under the hook's events. -/
inductive Reachable (opts : Options) : World → Prop where
  | init : Reachable opts initWorld
  | step {w : World} (e : Event) : Reachable opts w → Reachable opts (stepFn opts e w)

/-- Total count of pending JavaScript timers the hook has caused to exist:
retry timeouts, settle timeouts, and check intervals. -/
def pendingTimerCount (w : World) : Nat :=
  w.env.retryTimers.length + w.env.settleTimers.length + w.env.liveIntervals.length

/-- A concrete connection-acknowledgement message. -/
def ackMsg : WsMessage :=
  { type := "connected", connection_id := "conn-1", message := "" }

/-- A concrete server-signaled error message. -/
def errMsg : WsMessage :=
  { type := "error", connection_id := "", message := "boom" }

/-- Concrete run: `connect()` then the ack arrives; the hook is `CONNECTED`. -/
def connectedWorld : World :=
  stepFn defaultOpts (Event.deliverMsg ackMsg)
    (stepFn defaultOpts Event.connectCall initWorld)

/-- Concrete run: the manual `reconnect` (the public `connect`) is called on
the initial world, arming the 100 ms settle timeout. -/
def reconWorld : World :=
  stepFn defaultOpts Event.reconnectCall initWorld

/-- Options for the exhaustion scenario of the spec: `maxAttempts = 3`. -/
def opts3 : Options := { messageTypes := none, maxReconnectAttempts := some 3 }

/-- Concrete run under `opts3` in which the transport never opens: connect,
then three poll-detected drops each scheduling and firing a retry, then a
final drop-detecting poll. Ends at `reconnectAttempts = 3 = maxAttempts`,
state `DISCONNECTED`. -/
def exhaustedWorld : World :=
  stepFn opts3 (Event.poll ConnectionState.CONNECTING 0)
    (stepFn opts3 Event.retryTimerFires
      (stepFn opts3 (Event.poll ConnectionState.CONNECTING 0)
        (stepFn opts3 Event.retryTimerFires
          (stepFn opts3 (Event.poll ConnectionState.CONNECTING 0)
            (stepFn opts3 Event.retryTimerFires
              (stepFn opts3 (Event.poll ConnectionState.CONNECTING 0)
                (stepFn opts3 Event.connectCall initWorld)))))))

/-- Options with a one-element `messageTypes` allow-list. -/
def optsSnap : Options :=
  { messageTypes := some ["snapshot_update"], maxReconnectAttempts := none }

/-- A message whose tag is outside the `optsSnap` allow-list. -/
def corridorMsg : WsMessage :=
  { type := "corridor_update", connection_id := "", message := "" }

/-- Concrete run under `opts3` with one scheduled retry pending. -/
def schedWorld : World :=
  stepFn opts3 (Event.poll ConnectionState.CONNECTING 0)
    (stepFn opts3 Event.connectCall initWorld)

/-- The inductive invariant of the hook's state machine: the reconnect
counter never exceeds the maximum; the hook's interval bookkeeping mirrors
the environment's live intervals; every live retry timer carries the tracked
timeout handle (hence at most one retry timer is ever live); and the tracked
handle is always below the id supply. -/
structure Inv (opts : Options) (w : World) : Prop where
  attempts_le : w.hook.reconnectAttempts ≤ maxAttempts opts
  intervals_eq : w.env.liveIntervals = w.hook.intervalIds
  retry_tracked : ∀ t ∈ w.env.retryTimers, w.hook.reconnectTimeout = some t.id
  retry_len : w.env.retryTimers.length ≤ 1
  tracked_lt : ∀ i, w.hook.reconnectTimeout = some i → i < w.env.nextId

/-! ## Frame lemmas -/

@[simp] theorem clearRT_shouldReconnect (w : World) :
    (clearReconnectTimeout w).hook.shouldReconnect = w.hook.shouldReconnect := by
  cases h : w.hook.reconnectTimeout <;> simp [clearReconnectTimeout, h]

@[simp] theorem clearRT_reconnectAttempts (w : World) :
    (clearReconnectTimeout w).hook.reconnectAttempts = w.hook.reconnectAttempts := by
  cases h : w.hook.reconnectTimeout <;> simp [clearReconnectTimeout, h]

@[simp] theorem clearRT_intervalIds (w : World) :
    (clearReconnectTimeout w).hook.intervalIds = w.hook.intervalIds := by
  cases h : w.hook.reconnectTimeout <;> simp [clearReconnectTimeout, h]

@[simp] theorem clearRT_isConnecting (w : World) :
    (clearReconnectTimeout w).hook.isConnecting = w.hook.isConnecting := by
  cases h : w.hook.reconnectTimeout <;> simp [clearReconnectTimeout, h]

@[simp] theorem clearRT_isConnected (w : World) :
    (clearReconnectTimeout w).hook.isConnected = w.hook.isConnected := by
  cases h : w.hook.reconnectTimeout <;> simp [clearReconnectTimeout, h]

@[simp] theorem clearRT_connectionId (w : World) :
    (clearReconnectTimeout w).hook.connectionId = w.hook.connectionId := by
  cases h : w.hook.reconnectTimeout <;> simp [clearReconnectTimeout, h]

@[simp] theorem clearRT_connectionState (w : World) :
    (clearReconnectTimeout w).hook.connectionState = w.hook.connectionState := by
  cases h : w.hook.reconnectTimeout <;> simp [clearReconnectTimeout, h]

@[simp] theorem clearRT_lastMessage (w : World) :
    (clearReconnectTimeout w).hook.lastMessage = w.hook.lastMessage := by
  cases h : w.hook.reconnectTimeout <;> simp [clearReconnectTimeout, h]

@[simp] theorem clearRT_wsConnected (w : World) :
    (clearReconnectTimeout w).env.wsConnected = w.env.wsConnected := by
  cases h : w.hook.reconnectTimeout <;> simp [clearReconnectTimeout, h]

@[simp] theorem clearRT_wsConnectionId (w : World) :
    (clearReconnectTimeout w).env.wsConnectionId = w.env.wsConnectionId := by
  cases h : w.hook.reconnectTimeout <;> simp [clearReconnectTimeout, h]

@[simp] theorem clearRT_listeners (w : World) :
    (clearReconnectTimeout w).hook.listeners = w.hook.listeners := by
  cases h : w.hook.reconnectTimeout <;> simp [clearReconnectTimeout, h]

@[simp] theorem clearRT_liveIntervals (w : World) :
    (clearReconnectTimeout w).env.liveIntervals = w.env.liveIntervals := by
  cases h : w.hook.reconnectTimeout <;> simp [clearReconnectTimeout, h]

@[simp] theorem clearRT_settleTimers (w : World) :
    (clearReconnectTimeout w).env.settleTimers = w.env.settleTimers := by
  cases h : w.hook.reconnectTimeout <;> simp [clearReconnectTimeout, h]

@[simp] theorem clearRT_nextId (w : World) :
    (clearReconnectTimeout w).env.nextId = w.env.nextId := by
  cases h : w.hook.reconnectTimeout <;> simp [clearReconnectTimeout, h]

@[simp] theorem clearRT_connectCalls (w : World) :
    (clearReconnectTimeout w).env.connectCalls = w.env.connectCalls := by
  cases h : w.hook.reconnectTimeout <;> simp [clearReconnectTimeout, h]

@[simp] theorem clearRT_wsDisconnectCalls (w : World) :
    (clearReconnectTimeout w).env.wsDisconnectCalls = w.env.wsDisconnectCalls := by
  cases h : w.hook.reconnectTimeout <;> simp [clearReconnectTimeout, h]

@[simp] theorem clearRT_log (w : World) :
    (clearReconnectTimeout w).log = w.log := by
  cases h : w.hook.reconnectTimeout <;> simp [clearReconnectTimeout, h]

@[simp] theorem clearRT_reconnectTimeout (w : World) :
    (clearReconnectTimeout w).hook.reconnectTimeout = none := by
  cases h : w.hook.reconnectTimeout <;> simp [clearReconnectTimeout, h]

theorem clearRT_of_none (w : World) (h : w.hook.reconnectTimeout = none) :
    clearReconnectTimeout w = w := by
  simp [clearReconnectTimeout, h]

/-- If every live retry timer carries the tracked handle, clearing the
tracked handle leaves no live retry timer. -/
theorem clearRT_retryTimers_nil (w : World)
    (h3 : ∀ t ∈ w.env.retryTimers, w.hook.reconnectTimeout = some t.id) :
    (clearReconnectTimeout w).env.retryTimers = [] := by
  cases h : w.hook.reconnectTimeout with
  | none =>
    simp [clearReconnectTimeout, h]
    cases hrt : w.env.retryTimers with
    | nil => rfl
    | cons t rest =>
      have := h3 t (by simp [hrt])
      rw [h] at this
      exact absurd this (by simp)
  | some id =>
    simp [clearReconnectTimeout, h]
    intro t ht
    have h4 := h3 t ht
    rw [h] at h4
    injection h4 with h5
    exact h5.symm

/-! ## Claim theorems: connect idempotence and backoff -/

/-- Claim C1: `connect()` is a no-op (so the transport's `connect` is not
invoked) whenever the in-flight flag is set or the transport already reports
connected; consequently two `connect()` calls in immediate succession from an
idle state enter `CONNECTING` and produce exactly one transport `connect`
invocation, the second call being an identity. -/
theorem claim1_connect_idempotent (opts : Options) (w : World) :
    (w.hook.isConnecting = true ∨ w.env.wsConnected = true → connectFn opts w = w) ∧
    (w.hook.isConnecting = false → w.env.wsConnected = false →
      (connectFn opts w).hook.connectionState = ConnectionState.CONNECTING ∧
      (connectFn opts w).hook.isConnecting = true ∧
      (connectFn opts w).env.connectCalls = w.env.connectCalls + 1 ∧
      connectFn opts (connectFn opts w) = connectFn opts w ∧
      (connectFn opts (connectFn opts w)).env.connectCalls = w.env.connectCalls + 1) := by
  constructor
  · rintro (h | h) <;> simp [connectFn, h]
  · intro h1 h2
    have hstate : (connectFn opts w).hook.connectionState = ConnectionState.CONNECTING := by
      simp [connectFn, h1, h2]
    have hc : (connectFn opts w).hook.isConnecting = true := by
      simp [connectFn, h1, h2]
    have hcalls : (connectFn opts w).env.connectCalls = w.env.connectCalls + 1 := by
      simp [connectFn, h1, h2]
    have hsecond : connectFn opts (connectFn opts w) = connectFn opts w := by
      rw [connectFn]
      simp [hc]
    refine ⟨hstate, hc, hcalls, hsecond, ?_⟩
    rw [hsecond, hcalls]

/-- Claim C1 witness: instantiation on the initial world. -/
theorem claim1_witness :
    initWorld.hook.isConnecting = false ∧ initWorld.env.wsConnected = false ∧
    (connectFn defaultOpts initWorld).hook.isConnecting = true ∧
    connectFn defaultOpts (connectFn defaultOpts initWorld) = connectFn defaultOpts initWorld ∧
    (connectFn defaultOpts (connectFn defaultOpts initWorld)).env.connectCalls =
      initWorld.env.connectCalls + 1 ∧
    connectFn defaultOpts (connectFn defaultOpts initWorld) = connectFn defaultOpts initWorld := by
  have h := claim1_connect_idempotent defaultOpts initWorld
  have h2 := h.2 rfl rfl
  exact ⟨rfl, rfl, h2.2.1, h2.2.2.2.1, h2.2.2.2.2, h2.2.2.2.1⟩

/-- Claim C2: with the hard-coded constants (`baseDelay` 1000 ms, jitter
range [0, 1000), `maxDelay` 30000 ms) and the default `maxAttempts` of 5,
scheduling retry attempt `a` (the counter being `a - 1` before the call) arms
a timer whose delay is exactly `min(1000 * 2^(a-1) + jitter, 30000)`, which
lies within `[1000 * 2^(a-1), min(1000 * 2^(a-1) + 1000, 30000)]`. -/
theorem claim2_backoff_delay (w : World) (a : Nat) (j : ℚ)
    (ha1 : 1 ≤ a) (ha2 : a ≤ 5)
    (hw : w.hook.reconnectAttempts = a - 1)
    (hs : w.hook.shouldReconnect = true)
    (hj0 : 0 ≤ j) (hj1 : j < 1000) :
    (scheduleReconnect defaultOpts j w).env.retryTimers =
      (clearReconnectTimeout w).env.retryTimers ++
        [{ id := w.env.nextId, delay := computeDelay a j }] ∧
    computeDelay a j = min (1000 * 2 ^ (a - 1) + j) 30000 ∧
    1000 * 2 ^ (a - 1) ≤ computeDelay a j ∧
    computeDelay a j ≤ min (1000 * 2 ^ (a - 1) + 1000) 30000 := by
  have hmax : maxAttempts defaultOpts = 5 := rfl
  have hlt : ¬ (maxAttempts defaultOpts ≤ (clearReconnectTimeout w).hook.reconnectAttempts) := by
    rw [clearRT_reconnectAttempts, hw, hmax]
    omega
  have hsr : ¬ ((clearReconnectTimeout w).hook.shouldReconnect = false) := by
    rw [clearRT_shouldReconnect, hs]
    simp
  have hsucc : w.hook.reconnectAttempts + 1 = a := by
    rw [hw]
    omega
  have harm : (scheduleReconnect defaultOpts j w).env.retryTimers =
      (clearReconnectTimeout w).env.retryTimers ++
        [{ id := w.env.nextId, delay := computeDelay a j }] := by
    rw [scheduleReconnect]
    rw [if_neg (by push_neg; exact ⟨fun hc => hsr hc, Nat.lt_of_not_le hlt⟩)]
    simp [hsucc]
  have hpow : (2 : ℚ) ^ (a - 1) ≤ 2 ^ 4 := by
    refine pow_le_pow_right₀ (by norm_num) (by omega)
  have hE : (1000 : ℚ) * 2 ^ (a - 1) ≤ 30000 := by nlinarith
  refine ⟨harm, rfl, ?_, ?_⟩
  · exact le_min (by linarith) hE
  · exact min_le_min (by linarith) le_rfl

/-- Claim C2 witness: first retry attempt on the initial world with zero
jitter gets delay 1000 ms. -/
theorem claim2_witness :
    initWorld.hook.reconnectAttempts = 1 - 1 ∧
    initWorld.hook.shouldReconnect = true ∧
    (scheduleReconnect defaultOpts 0 initWorld).env.retryTimers =
      (clearReconnectTimeout initWorld).env.retryTimers ++
        [{ id := initWorld.env.nextId, delay := computeDelay 1 0 }] ∧
    1000 * 2 ^ (1 - 1) ≤ computeDelay 1 (0 : ℚ) ∧
    computeDelay 1 (0 : ℚ) ≤ min (1000 * 2 ^ (1 - 1) + 1000) 30000 := by
  have h := claim2_backoff_delay initWorld 1 0 (by norm_num) (by norm_num) rfl rfl
    (by norm_num) (by norm_num)
  exact ⟨rfl, rfl, h.1, h.2.2.1, h.2.2.2⟩

/-! ## Claim theorems: the connected transition -/

/-- Shared description of `handleMessage` on a `connected`-tagged message. -/
theorem handleMessage_connected (m : WsMessage) (w : World) (hm : m.type = "connected") :
    (handleMessageFn m w).hook.isConnected = true ∧
    (handleMessageFn m w).hook.connectionId = some m.connection_id ∧
    (handleMessageFn m w).hook.connectionState = ConnectionState.CONNECTED ∧
    (handleMessageFn m w).hook.isConnecting = false ∧
    (handleMessageFn m w).hook.reconnectAttempts = 0 ∧
    (handleMessageFn m w).log.onConnectCalls = w.log.onConnectCalls + 1 ∧
    (handleMessageFn m w).hook.lastMessage = some m ∧
    (handleMessageFn m w).log.onMessageCalls = w.log.onMessageCalls ++ [m] := by
  simp [handleMessageFn, hm]

/-- Claim C6: an ack (`connected`-tagged) message dispatched while
`CONNECTING` moves the machine to `CONNECTED`, captures the carried
connection id, resets the reconnect counter to 0 regardless of its prior
value, clears the in-flight flag, and invokes the `onConnect` callback. -/
theorem claim6_ack_while_connecting (w : World) (m : WsMessage)
    (_hst : w.hook.connectionState = ConnectionState.CONNECTING)
    (hm : m.type = "connected") :
    (handleMessageFn m w).hook.connectionState = ConnectionState.CONNECTED ∧
    (handleMessageFn m w).hook.connectionId = some m.connection_id ∧
    (handleMessageFn m w).hook.reconnectAttempts = 0 ∧
    (handleMessageFn m w).hook.isConnecting = false ∧
    (handleMessageFn m w).log.onConnectCalls = w.log.onConnectCalls + 1 := by
  obtain ⟨h1, h2, h3, h4, h5, h6, h7, h8⟩ := handleMessage_connected m w hm
  exact ⟨h3, h2, h5, h4, h6⟩

/-- Claim C6 witness: ack dispatched right after `connect()` on the initial
world. -/
theorem claim6_witness :
    (stepFn defaultOpts Event.connectCall initWorld).hook.connectionState =
      ConnectionState.CONNECTING ∧
    ackMsg.type = "connected" ∧
    ((handleMessageFn ackMsg (stepFn defaultOpts Event.connectCall initWorld)).hook.connectionState =
        ConnectionState.CONNECTED ∧
      (handleMessageFn ackMsg (stepFn defaultOpts Event.connectCall initWorld)).hook.connectionId =
        some ackMsg.connection_id ∧
      (handleMessageFn ackMsg (stepFn defaultOpts Event.connectCall initWorld)).hook.reconnectAttempts = 0 ∧
      (handleMessageFn ackMsg (stepFn defaultOpts Event.connectCall initWorld)).hook.isConnecting = false ∧
      (handleMessageFn ackMsg (stepFn defaultOpts Event.connectCall initWorld)).log.onConnectCalls =
        (stepFn defaultOpts Event.connectCall initWorld).log.onConnectCalls + 1) := by
  refine ⟨by decide, rfl, claim6_ack_while_connecting _ ackMsg (by decide) rfl⟩

/-- Claim C10 (implicit): the `connected` transition of `handleMessage` is
unconditional in the current state: from every state it sets `isConnected`,
stores the carried connection id, forces `CONNECTED`, clears the in-flight
flag, zeroes the reconnect counter, and invokes `onConnect`. -/
theorem claim10_connected_from_any_state (w : World) (m : WsMessage)
    (hm : m.type = "connected") :
    (handleMessageFn m w).hook.isConnected = true ∧
    (handleMessageFn m w).hook.connectionId = some m.connection_id ∧
    (handleMessageFn m w).hook.connectionState = ConnectionState.CONNECTED ∧
    (handleMessageFn m w).hook.isConnecting = false ∧
    (handleMessageFn m w).hook.reconnectAttempts = 0 ∧
    (handleMessageFn m w).log.onConnectCalls = w.log.onConnectCalls + 1 := by
  obtain ⟨h1, h2, h3, h4, h5, h6, h7, h8⟩ := handleMessage_connected m w hm
  exact ⟨h1, h2, h3, h4, h5, h6⟩

/-- Claim C10 witness: the `connected` transition fires even from the
initial `DISCONNECTED` state. -/
theorem claim10_witness :
    ackMsg.type = "connected" ∧
    ((handleMessageFn ackMsg initWorld).hook.isConnected = true ∧
      (handleMessageFn ackMsg initWorld).hook.connectionId = some ackMsg.connection_id ∧
      (handleMessageFn ackMsg initWorld).hook.connectionState = ConnectionState.CONNECTED ∧
      (handleMessageFn ackMsg initWorld).hook.isConnecting = false ∧
      (handleMessageFn ackMsg initWorld).hook.reconnectAttempts = 0 ∧
      (handleMessageFn ackMsg initWorld).log.onConnectCalls = initWorld.log.onConnectCalls + 1) :=
  ⟨rfl, claim10_connected_from_any_state initWorld ackMsg rfl⟩

/-! ## Claim theorems: the error path -/

/-- Claim C5 counterexample: in the reachable world reached by `connect()`
followed by the ack, the state machine is `CONNECTED`; delivering an
`error`-tagged message then leaves it `DISCONNECTED` — the error dispatch
does change the connection state (through the always-registered error
listener), contrary to the claim that state changes happen only via the ack
and reconciliation-poll paths. -/
theorem claim5_counterexample :
    connectedWorld.hook.connectionState = ConnectionState.CONNECTED ∧
    (stepFn defaultOpts (Event.deliverMsg errMsg) connectedWorld).hook.connectionState =
      ConnectionState.DISCONNECTED ∧
    (stepFn defaultOpts (Event.deliverMsg errMsg) connectedWorld).log.onErrorCalls = ["boom"] ∧
    Reachable defaultOpts connectedWorld := by
  refine ⟨by decide, by decide, by decide, ?_⟩
  exact Reachable.step (Event.deliverMsg ackMsg) (Reachable.step Event.connectCall Reachable.init)

/-- Claim C5 as amended: dispatching an `error`-tagged message invokes
`onError` with the carried text and forwards the message to `onMessage` like
any other message; the dispatch handler itself leaves `isConnected`,
`connectionId`, the state machine and the reconnect counter unchanged — but
the always-registered error listener additionally clears the in-flight flag
and forces the state machine to `DISCONNECTED`, so the error path is a third
source of state changes besides the ack and reconciliation-poll paths. -/
theorem claim5_error_dispatch (w : World) (m : WsMessage) (hm : m.type = "error") :
    (handleMessageFn m w).log.onErrorCalls = w.log.onErrorCalls ++ [m.message] ∧
    (handleMessageFn m w).log.onMessageCalls = w.log.onMessageCalls ++ [m] ∧
    (handleMessageFn m w).hook.isConnected = w.hook.isConnected ∧
    (handleMessageFn m w).hook.connectionId = w.hook.connectionId ∧
    (handleMessageFn m w).hook.connectionState = w.hook.connectionState ∧
    (handleMessageFn m w).hook.reconnectAttempts = w.hook.reconnectAttempts ∧
    (handleMessageFn m w).hook.isConnecting = w.hook.isConnecting ∧
    (fireListener m w Listener.errorHandler).hook.connectionState =
      ConnectionState.DISCONNECTED ∧
    (fireListener m w Listener.errorHandler).hook.isConnecting = false := by
  simp [handleMessageFn, fireListener, hm]

/-- Claim C5 witness: the amended statement instantiated on the concrete
connected world and the concrete error message. -/
theorem claim5_witness :
    errMsg.type = "error" ∧
    (handleMessageFn errMsg connectedWorld).log.onErrorCalls =
      connectedWorld.log.onErrorCalls ++ [errMsg.message] ∧
    (handleMessageFn errMsg connectedWorld).hook.isConnected =
      connectedWorld.hook.isConnected ∧
    (fireListener errMsg connectedWorld Listener.errorHandler).hook.connectionState =
      ConnectionState.DISCONNECTED := by
  have h := claim5_error_dispatch connectedWorld errMsg rfl
  exact ⟨rfl, h.1, h.2.2.1, h.2.2.2.2.2.2.2.1⟩

/-! ## Claim theorems: the retry decision -/

/-- Claim C7: the retry decision is true exactly when auto-reconnect is
enabled and the attempt counter is strictly below the maximum; under enabled
auto-reconnect, `scheduleReconnect` arms a retry (entering `RECONNECTING`
and incrementing the counter) whenever the counter is below the maximum, and
refuses (entering `DISCONNECTED`, arming nothing) whenever it has reached
it. -/
theorem claim7_retry_decision (opts : Options) (w : World) (j : ℚ) :
    (shouldRetry opts w = true ↔
      w.hook.shouldReconnect = true ∧ w.hook.reconnectAttempts < maxAttempts opts) ∧
    (w.hook.shouldReconnect = true → w.hook.reconnectAttempts < maxAttempts opts →
      (scheduleReconnect opts j w).hook.connectionState = ConnectionState.RECONNECTING ∧
      (scheduleReconnect opts j w).hook.reconnectAttempts = w.hook.reconnectAttempts + 1 ∧
      (scheduleReconnect opts j w).hook.reconnectTimeout = some w.env.nextId ∧
      (scheduleReconnect opts j w).env.retryTimers =
        (clearReconnectTimeout w).env.retryTimers ++
          [{ id := w.env.nextId, delay := computeDelay (w.hook.reconnectAttempts + 1) j }]) ∧
    (w.hook.shouldReconnect = true → maxAttempts opts ≤ w.hook.reconnectAttempts →
      (scheduleReconnect opts j w).hook.connectionState = ConnectionState.DISCONNECTED ∧
      (scheduleReconnect opts j w).hook.isConnecting = false ∧
      (scheduleReconnect opts j w).hook.reconnectAttempts = w.hook.reconnectAttempts ∧
      (scheduleReconnect opts j w).hook.reconnectTimeout = none ∧
      (scheduleReconnect opts j w).env.retryTimers =
        (clearReconnectTimeout w).env.retryTimers) := by
  refine ⟨?_, ?_, ?_⟩
  · simp [shouldRetry]
  · intro hs hlt
    have hcond : ¬ ((clearReconnectTimeout w).hook.shouldReconnect = false ∨
        maxAttempts opts ≤ (clearReconnectTimeout w).hook.reconnectAttempts) := by
      push_neg
      constructor
      · rw [clearRT_shouldReconnect, hs]
        simp
      · rw [clearRT_reconnectAttempts]
        exact hlt
    rw [scheduleReconnect]
    rw [if_neg hcond]
    simp
  · intro hs hge
    rw [scheduleReconnect]
    rw [if_pos (by refine Or.inr ?_; rw [clearRT_reconnectAttempts]; exact hge)]
    simp

/-- Claim C7 witness: the decision and both branches at concrete states —
armed on the fresh initial world, refused on the concrete exhausted run. -/
theorem claim7_witness :
    shouldRetry defaultOpts initWorld = true ∧
    initWorld.hook.shouldReconnect = true ∧
    initWorld.hook.reconnectAttempts < maxAttempts defaultOpts ∧
    (scheduleReconnect defaultOpts 0 initWorld).hook.connectionState =
      ConnectionState.RECONNECTING ∧
    exhaustedWorld.hook.shouldReconnect = true ∧
    maxAttempts opts3 ≤ exhaustedWorld.hook.reconnectAttempts ∧
    (scheduleReconnect opts3 0 exhaustedWorld).hook.connectionState =
      ConnectionState.DISCONNECTED := by
  have h1 := (claim7_retry_decision defaultOpts initWorld 0).2.1 rfl (by decide)
  have h2 := (claim7_retry_decision opts3 exhaustedWorld 0).2.2 (by decide) (by decide)
  exact ⟨by decide, rfl, by decide, h1.1, by decide, by decide, h2.1⟩

/-! ## Claim theorems: selector filtering -/

theorem fireListener_onType_skip (m : WsMessage) (w : World) (t : String)
    (h : m.type ≠ t) : fireListener m w (Listener.onType t) = w := by
  simp [fireListener, h]

theorem foldl_onType_skip (m : WsMessage) :
    ∀ (l : List String) (w : World), m.type ∉ l →
      List.foldl (fireListener m) w (l.map Listener.onType) = w := by
  intro l
  induction l with
  | nil => intro w _; rfl
  | cons t rest ih =>
    intro w h
    rw [List.map_cons, List.foldl_cons]
    have h1 : m.type ≠ t := fun e => h (by rw [e]; exact List.mem_cons_self t rest)
    rw [fireListener_onType_skip m w t h1]
    exact ih w (fun hm => h (List.mem_cons_of_mem t hm))

/-- The always-registered error listener never touches the callback log or
the `lastMessage` slot. -/
theorem fireListener_errorHandler_frame (m : WsMessage) (w : World) :
    (fireListener m w Listener.errorHandler).log = w.log ∧
    (fireListener m w Listener.errorHandler).hook.lastMessage = w.hook.lastMessage := by
  by_cases h : m.type = "error" <;> simp [fireListener, h]

/-- `handleMessage` always appends to the `onMessage` log and overwrites the
`lastMessage` slot, whatever the tag. -/
theorem handleMessage_onMessage (m : WsMessage) (w : World) :
    (handleMessageFn m w).log.onMessageCalls = w.log.onMessageCalls ++ [m] ∧
    (handleMessageFn m w).hook.lastMessage = some m := by
  by_cases h1 : m.type = "connected"
  · by_cases h2 : m.type = "error"
    · exact absurd (h1.symm.trans h2) (by decide)
    · simp [handleMessageFn, h1, h2]
  · by_cases h2 : m.type = "error"
    · simp [handleMessageFn, h1, h2]
    · simp [handleMessageFn, h1, h2]

/-- Claim C8: with a non-empty `messageTypes` allow-list, a message whose
tag is outside the list triggers no `onMessage` call and leaves
`lastMessage` unchanged; with no `messageTypes` list, every message triggers
exactly one `onMessage` call and overwrites `lastMessage`. -/
theorem claim8_selector_filtering (opts : Options) (w : World) (l : List String)
    (m : WsMessage) :
    (opts.messageTypes = some l → l ≠ [] → w.hook.listeners = subscribeList opts →
      m.type ∉ l →
      (deliver m w).log.onMessageCalls = w.log.onMessageCalls ∧
      (deliver m w).hook.lastMessage = w.hook.lastMessage) ∧
    (opts.messageTypes = none → w.hook.listeners = subscribeList opts →
      (deliver m w).log.onMessageCalls = w.log.onMessageCalls ++ [m] ∧
      (deliver m w).hook.lastMessage = some m) := by
  constructor
  · intro hmt hne hl hnot
    have hlen : l.length > 0 := List.length_pos.mpr hne
    have hsubs : subscribeList opts = l.map Listener.onType ++ [Listener.errorHandler] := by
      simp only [subscribeList, hmt]
      rw [if_pos hlen]
    rw [deliver, hl, hsubs, List.foldl_append]
    rw [foldl_onType_skip m l w hnot]
    rw [List.foldl_cons, List.foldl_nil]
    have hf := fireListener_errorHandler_frame m w
    exact ⟨congrArg CallbackLog.onMessageCalls hf.1, hf.2⟩
  · intro hmt hl
    have hsubs : subscribeList opts = [Listener.onAnyL, Listener.errorHandler] := by
      simp only [subscribeList, hmt]
      rfl
    rw [deliver, hl, hsubs]
    rw [List.foldl_cons, List.foldl_cons, List.foldl_nil]
    have hone := handleMessage_onMessage m w
    have hf := fireListener_errorHandler_frame m (handleMessageFn m w)
    constructor
    · rw [show fireListener m w Listener.onAnyL = handleMessageFn m w from rfl]
      rw [congrArg CallbackLog.onMessageCalls hf.1]
      exact hone.1
    · rw [show fireListener m w Listener.onAnyL = handleMessageFn m w from rfl]
      rw [hf.2]
      exact hone.2

/-- Claim C8 witness: a `corridor_update` message against the
`['snapshot_update']` allow-list is dropped; against no list, the same
message is forwarded once and stored. -/
theorem claim8_witness :
    optsSnap.messageTypes = some ["snapshot_update"] ∧
    (["snapshot_update"] : List String) ≠ [] ∧
    (stepFn optsSnap Event.connectCall initWorld).hook.listeners = subscribeList optsSnap ∧
    corridorMsg.type ∉ (["snapshot_update"] : List String) ∧
    (deliver corridorMsg (stepFn optsSnap Event.connectCall initWorld)).log.onMessageCalls =
      (stepFn optsSnap Event.connectCall initWorld).log.onMessageCalls ∧
    (deliver corridorMsg (stepFn optsSnap Event.connectCall initWorld)).hook.lastMessage =
      (stepFn optsSnap Event.connectCall initWorld).hook.lastMessage ∧
    defaultOpts.messageTypes = none ∧
    connectedWorld.hook.listeners = subscribeList defaultOpts ∧
    (deliver corridorMsg connectedWorld).log.onMessageCalls =
      connectedWorld.log.onMessageCalls ++ [corridorMsg] ∧
    (deliver corridorMsg connectedWorld).hook.lastMessage = some corridorMsg := by
  have h1 := (claim8_selector_filtering optsSnap
    (stepFn optsSnap Event.connectCall initWorld) ["snapshot_update"] corridorMsg).1
    rfl (by decide) (by decide) (by decide)
  have h2 := (claim8_selector_filtering defaultOpts connectedWorld [] corridorMsg).2
    rfl (by decide)
  exact ⟨rfl, by decide, by decide, by decide, h1.1, h1.2, rfl, by decide, h2.1, h2.2⟩

/-! ## Invariant preservation -/

theorem filter_not_mem_self (L : List Nat) :
    L.filter (fun i => i ∉ L) = [] := by
  refine List.filter_eq_nil_iff.mpr ?_
  intro a ha
  simp [ha]

/-- `handleMessage` never touches the environment, the hook's subscription
bookkeeping or the timeout handle, and never increases the counter. -/
theorem handleMessage_frame (m : WsMessage) (w : World) :
    (handleMessageFn m w).env = w.env ∧
    (handleMessageFn m w).hook.intervalIds = w.hook.intervalIds ∧
    (handleMessageFn m w).hook.listeners = w.hook.listeners ∧
    (handleMessageFn m w).hook.reconnectTimeout = w.hook.reconnectTimeout ∧
    (handleMessageFn m w).hook.reconnectAttempts ≤ w.hook.reconnectAttempts := by
  by_cases h1 : m.type = "connected" <;> by_cases h2 : m.type = "error" <;>
    simp [handleMessageFn, h1, h2]

theorem fireListener_frame (m : WsMessage) (w : World) (l : Listener) :
    (fireListener m w l).env = w.env ∧
    (fireListener m w l).hook.intervalIds = w.hook.intervalIds ∧
    (fireListener m w l).hook.listeners = w.hook.listeners ∧
    (fireListener m w l).hook.reconnectTimeout = w.hook.reconnectTimeout ∧
    (fireListener m w l).hook.reconnectAttempts ≤ w.hook.reconnectAttempts := by
  cases l with
  | onType t =>
    by_cases h : m.type = t
    · simp only [fireListener, if_pos h]
      exact handleMessage_frame m w
    · simp [fireListener, h]
  | onAnyL => exact handleMessage_frame m w
  | errorHandler => by_cases h : m.type = "error" <;> simp [fireListener, h]

theorem inv_fireListener (opts : Options) (m : WsMessage) (w : World) (l : Listener)
    (h : Inv opts w) : Inv opts (fireListener m w l) := by
  obtain ⟨f1, f2, f3, f4, f5⟩ := fireListener_frame m w l
  refine ⟨le_trans f5 h.attempts_le, ?_, ?_, ?_, ?_⟩
  · rw [f1, f2]
    exact h.intervals_eq
  · rw [f1, f4]
    exact h.retry_tracked
  · rw [f1]
    exact h.retry_len
  · rw [f1, f4]
    exact h.tracked_lt

theorem inv_foldl_fire (opts : Options) (m : WsMessage) :
    ∀ (L : List Listener) (w : World), Inv opts w →
      Inv opts (List.foldl (fireListener m) w L) := by
  intro L
  induction L with
  | nil => intro w h; exact h
  | cons a L ih =>
    intro w h
    rw [List.foldl_cons]
    exact ih _ (inv_fireListener opts m w a h)

theorem inv_deliver (opts : Options) (m : WsMessage) (w : World) (h : Inv opts w) :
    Inv opts (deliver m w) :=
  inv_foldl_fire opts m w.hook.listeners w h

theorem inv_connectFn (opts : Options) (w : World) (h : Inv opts w) :
    Inv opts (connectFn opts w) := by
  by_cases h1 : w.hook.isConnecting = true
  · rw [connectFn, if_pos h1]
    exact h
  · by_cases h2 : w.env.wsConnected = true
    · rw [connectFn, if_neg h1, if_pos h2]
      exact h
    · rw [connectFn, if_neg h1, if_neg h2]
      refine ⟨h.attempts_le, ?_, h.retry_tracked, h.retry_len, ?_⟩
      · show w.env.liveIntervals.filter (fun i => i ∉ w.hook.intervalIds) ++
            [w.env.nextId] = [w.env.nextId]
        rw [h.intervals_eq, filter_not_mem_self]
        rfl
      · intro i hi
        exact Nat.lt_succ_of_lt (h.tracked_lt i hi)

theorem inv_scheduleReconnect (opts : Options) (j : ℚ) (w : World) (h : Inv opts w) :
    Inv opts (scheduleReconnect opts j w) := by
  have hnil := clearRT_retryTimers_nil w h.retry_tracked
  by_cases hc : (clearReconnectTimeout w).hook.shouldReconnect = false ∨
      maxAttempts opts ≤ (clearReconnectTimeout w).hook.reconnectAttempts
  · rw [scheduleReconnect, if_pos hc]
    refine ⟨?_, ?_, ?_, ?_, ?_⟩
    · simpa using h.attempts_le
    · simpa using h.intervals_eq
    · simp [hnil]
    · simp [hnil]
    · simp
  · rw [scheduleReconnect, if_neg hc]
    have hlt : w.hook.reconnectAttempts < maxAttempts opts := by
      rcases not_or.mp hc with ⟨_, h2⟩
      rw [clearRT_reconnectAttempts] at h2
      omega
    refine ⟨?_, ?_, ?_, ?_, ?_⟩
    · simp
      omega
    · simpa using h.intervals_eq
    · simp [hnil]
    · simp [hnil]
    · simp

/-- `Inv` depends only on a handful of fields. -/
theorem inv_of_fields (opts : Options) (w w' : World) (h : Inv opts w)
    (e1 : w'.hook.reconnectAttempts = w.hook.reconnectAttempts)
    (e2 : w'.env.liveIntervals = w.env.liveIntervals)
    (e3 : w'.hook.intervalIds = w.hook.intervalIds)
    (e4 : w'.env.retryTimers = w.env.retryTimers)
    (e5 : w'.hook.reconnectTimeout = w.hook.reconnectTimeout)
    (e6 : w'.env.nextId = w.env.nextId) : Inv opts w' := by
  refine ⟨?_, ?_, ?_, ?_, ?_⟩
  · rw [e1]
    exact h.attempts_le
  · rw [e2, e3]
    exact h.intervals_eq
  · rw [e4, e5]
    exact h.retry_tracked
  · rw [e4]
    exact h.retry_len
  · rw [e5, e6]
    exact h.tracked_lt

theorem inv_pollTick (opts : Options) (snap : ConnectionState) (j : ℚ) (w : World)
    (h : Inv opts w) : Inv opts (pollTick opts snap j w) := by
  simp only [pollTick]
  split
  · split
    · exact inv_of_fields opts w _ h rfl rfl rfl rfl rfl rfl
    · exact inv_of_fields opts w _ h rfl rfl rfl rfl rfl rfl
  · split
    · split
      · exact inv_scheduleReconnect opts j _
          (inv_of_fields opts w _ h rfl rfl rfl rfl rfl rfl)
      · exact inv_of_fields opts w _ h rfl rfl rfl rfl rfl rfl
    · exact inv_of_fields opts w _ h rfl rfl rfl rfl rfl rfl

/-- Full effect of `disconnect` on a state satisfying the invariant. -/
theorem disconnect_spec (opts : Options) (w : World) (h : Inv opts w) :
    (disconnectFn w).hook.listeners = [] ∧
    (disconnectFn w).hook.intervalIds = [] ∧
    (disconnectFn w).env.retryTimers = [] ∧
    (disconnectFn w).env.liveIntervals = [] ∧
    (disconnectFn w).env.settleTimers = w.env.settleTimers ∧
    (disconnectFn w).hook.shouldReconnect = false ∧
    (disconnectFn w).hook.isConnecting = false ∧
    (disconnectFn w).hook.reconnectTimeout = none ∧
    (disconnectFn w).hook.reconnectAttempts = 0 ∧
    (disconnectFn w).hook.connectionState = ConnectionState.DISCONNECTED ∧
    (disconnectFn w).hook.isConnected = false ∧
    (disconnectFn w).hook.connectionId = none ∧
    (disconnectFn w).env.wsDisconnectCalls = w.env.wsDisconnectCalls + 1 ∧
    (disconnectFn w).log.onDisconnectCalls = w.log.onDisconnectCalls + 1 := by
  have hnil : (clearReconnectTimeout
      { w with
        hook := { w.hook with shouldReconnect := false, isConnecting := false } }).env.retryTimers = [] :=
    clearRT_retryTimers_nil _ h.retry_tracked
  refine ⟨?_, ?_, ?_, ?_, ?_, ?_, ?_, ?_, ?_, ?_, ?_, ?_, ?_, ?_⟩ <;>
    simp [disconnectFn, hnil, h.intervals_eq, filter_not_mem_self]

theorem inv_disconnect (opts : Options) (w : World) (h : Inv opts w) :
    Inv opts (disconnectFn w) := by
  obtain ⟨s1, s2, s3, s4, s5, s6, s7, s8, s9, s10, s11, s12, s13, s14⟩ :=
    disconnect_spec opts w h
  refine ⟨?_, ?_, ?_, ?_, ?_⟩
  · rw [s9]
    exact Nat.zero_le _
  · rw [s4, s2]
  · rw [s3]
    intro t ht
    exact absurd ht (List.not_mem_nil t)
  · rw [s3]
    simp
  · rw [s8]
    intro i hi
    exact absurd hi (by simp)

theorem inv_reconnect (opts : Options) (w : World) (h : Inv opts w) :
    Inv opts (reconnectFn w) := by
  obtain ⟨s1, s2, s3, s4, s5, s6, s7, s8, s9, s10, s11, s12, s13, s14⟩ :=
    disconnect_spec opts w h
  refine ⟨?_, ?_, ?_, ?_, ?_⟩
  · show (0 : Nat) ≤ maxAttempts opts
    exact Nat.zero_le _
  · show (disconnectFn w).env.liveIntervals = (disconnectFn w).hook.intervalIds
    rw [s4, s2]
  · show ∀ t ∈ (disconnectFn w).env.retryTimers, _
    rw [s3]
    intro t ht
    exact absurd ht (List.not_mem_nil t)
  · show (disconnectFn w).env.retryTimers.length ≤ 1
    rw [s3]
    simp
  · show ∀ i, (disconnectFn w).hook.reconnectTimeout = some i → _
    rw [s8]
    intro i hi
    exact absurd hi (by simp)

theorem inv_retryFire (opts : Options) (w : World) (h : Inv opts w) :
    Inv opts (retryFire opts w) := by
  cases hrt : w.env.retryTimers with
  | nil =>
    simp only [retryFire, hrt]
    exact h
  | cons t rest =>
    simp only [retryFire, hrt]
    apply inv_connectFn
    refine ⟨h.attempts_le, h.intervals_eq, ?_, ?_, h.tracked_lt⟩
    · intro t' ht'
      refine h.retry_tracked t' ?_
      rw [hrt]
      exact List.mem_cons_of_mem t ht'
    · have hl := h.retry_len
      rw [hrt] at hl
      simp only [List.length_cons] at hl
      show rest.length ≤ 1
      omega

theorem inv_settleFire (opts : Options) (w : World) (h : Inv opts w) :
    Inv opts (settleFire opts w) := by
  cases hst : w.env.settleTimers with
  | nil =>
    simp only [settleFire, hst]
    exact h
  | cons d rest =>
    simp only [settleFire, hst]
    apply inv_connectFn
    exact ⟨h.attempts_le, h.intervals_eq, h.retry_tracked, h.retry_len, h.tracked_lt⟩

theorem inv_step (opts : Options) (e : Event) (w : World) (h : Inv opts w) :
    Inv opts (stepFn opts e w) := by
  cases e with
  | deliverMsg m => exact inv_deliver opts m w h
  | connectCall => exact inv_connectFn opts w h
  | poll snap j => exact inv_pollTick opts snap j w h
  | retryTimerFires => exact inv_retryFire opts w h
  | settleTimerFires => exact inv_settleFire opts w h
  | disconnectCall => exact inv_disconnect opts w h
  | reconnectCall => exact inv_reconnect opts w h
  | transportOpens cid =>
    exact ⟨h.attempts_le, h.intervals_eq, h.retry_tracked, h.retry_len, h.tracked_lt⟩
  | transportDrops =>
    exact ⟨h.attempts_le, h.intervals_eq, h.retry_tracked, h.retry_len, h.tracked_lt⟩

theorem inv_init (opts : Options) : Inv opts initWorld := by
  refine ⟨Nat.zero_le _, rfl, ?_, ?_, ?_⟩
  · intro t ht
    exact absurd ht (List.not_mem_nil t)
  · simp [initWorld]
  · intro i hi
    exact absurd hi (by simp [initWorld])

theorem inv_reachable (opts : Options) (w : World) (h : Reachable opts w) :
    Inv opts w := by
  induction h with
  | init => exact inv_init opts
  | step e _ ih => exact inv_step opts e _ ih

/-- `scheduleReconnect` when the counter has reached the maximum: terminal
`DISCONNECTED`, in-flight flag cleared, counter untouched, no timer armed. -/
theorem scheduleReconnect_refused (opts : Options) (j : ℚ) (w : World)
    (hge : maxAttempts opts ≤ w.hook.reconnectAttempts) :
    (scheduleReconnect opts j w).hook.connectionState = ConnectionState.DISCONNECTED ∧
    (scheduleReconnect opts j w).hook.isConnecting = false ∧
    (scheduleReconnect opts j w).hook.reconnectAttempts = w.hook.reconnectAttempts ∧
    (scheduleReconnect opts j w).hook.reconnectTimeout = none ∧
    (scheduleReconnect opts j w).env.retryTimers =
      (clearReconnectTimeout w).env.retryTimers := by
  rw [scheduleReconnect, if_pos (Or.inr (by rw [clearRT_reconnectAttempts]; exact hge))]
  simp

/-! ## Claim theorems: counter bound and exhaustion -/

/-- Claim C3: in every reachable state the reconnect counter is at most
`maxAttempts`; once it equals `maxAttempts`, both scheduling paths (a direct
`scheduleReconnect` and a drop-detecting poll tick) force `DISCONNECTED`
without arming any retry timer or growing the counter; the manual
`reconnect` (the public `connect`) resets the counter to 0. -/
theorem claim3_counter_bounded (opts : Options) (w : World) (h : Reachable opts w) :
    w.hook.reconnectAttempts ≤ maxAttempts opts ∧
    (w.hook.reconnectAttempts = maxAttempts opts → ∀ j : ℚ,
      (scheduleReconnect opts j w).hook.connectionState = ConnectionState.DISCONNECTED ∧
      (scheduleReconnect opts j w).hook.isConnecting = false ∧
      (scheduleReconnect opts j w).env.retryTimers = [] ∧
      (scheduleReconnect opts j w).hook.reconnectTimeout = none ∧
      (scheduleReconnect opts j w).hook.reconnectAttempts = w.hook.reconnectAttempts) ∧
    (w.hook.reconnectAttempts = maxAttempts opts →
      ∀ (snap : ConnectionState) (j : ℚ), w.env.wsConnected = false →
        (snap = ConnectionState.CONNECTED ∨ snap = ConnectionState.CONNECTING) →
        (pollTick opts snap j w).hook.connectionState = ConnectionState.DISCONNECTED ∧
        (pollTick opts snap j w).env.retryTimers = w.env.retryTimers ∧
        (pollTick opts snap j w).hook.reconnectAttempts = w.hook.reconnectAttempts) ∧
    (reconnectFn w).hook.reconnectAttempts = 0 := by
  have inv := inv_reachable opts w h
  have hnil := clearRT_retryTimers_nil w inv.retry_tracked
  refine ⟨inv.attempts_le, ?_, ?_, rfl⟩
  · intro hmax j
    have hge : maxAttempts opts ≤ w.hook.reconnectAttempts := le_of_eq hmax.symm
    obtain ⟨r1, r2, r3, r4, r5⟩ := scheduleReconnect_refused opts j w hge
    exact ⟨r1, r2, r5.trans hnil, r4, r3⟩
  · intro hmax snap j hcon hor
    rcases hor with hs | hs <;> subst hs <;>
      simp [pollTick, hcon, shouldRetry, hmax]

/-- Claim C3 witness: the concrete exhausted run under `maxAttempts = 3`. -/
theorem claim3_witness :
    Reachable opts3 exhaustedWorld ∧
    exhaustedWorld.hook.reconnectAttempts = maxAttempts opts3 ∧
    exhaustedWorld.hook.reconnectAttempts ≤ maxAttempts opts3 ∧
    (scheduleReconnect opts3 0 exhaustedWorld).hook.connectionState =
      ConnectionState.DISCONNECTED ∧
    (scheduleReconnect opts3 0 exhaustedWorld).env.retryTimers = [] ∧
    (reconnectFn exhaustedWorld).hook.reconnectAttempts = 0 := by
  have hr : Reachable opts3 exhaustedWorld :=
    Reachable.step (Event.poll ConnectionState.CONNECTING 0)
      (Reachable.step Event.retryTimerFires
        (Reachable.step (Event.poll ConnectionState.CONNECTING 0)
          (Reachable.step Event.retryTimerFires
            (Reachable.step (Event.poll ConnectionState.CONNECTING 0)
              (Reachable.step Event.retryTimerFires
                (Reachable.step (Event.poll ConnectionState.CONNECTING 0)
                  (Reachable.step Event.connectCall Reachable.init)))))))
  have h := claim3_counter_bounded opts3 exhaustedWorld hr
  have h2 := h.2.1 (by decide) 0
  exact ⟨hr, by decide, h.1, h2.1, h2.2.2.1, h.2.2.2⟩

/-- Claim C9: in every reachable state at most one retry timer is live;
`scheduleReconnect` keeps it so, and any newly armed timer never reuses the
previously tracked handle (the old timeout is cancelled first); clearing
when no timeout is tracked is the identity. -/
theorem claim9_single_retry_timer (opts : Options) (w : World) (h : Reachable opts w) :
    w.env.retryTimers.length ≤ 1 ∧
    (∀ j : ℚ, (scheduleReconnect opts j w).env.retryTimers.length ≤ 1) ∧
    (∀ (j : ℚ) (oldId : Nat), w.hook.reconnectTimeout = some oldId →
      ∀ t ∈ (scheduleReconnect opts j w).env.retryTimers, t.id ≠ oldId) ∧
    (w.hook.reconnectTimeout = none → clearReconnectTimeout w = w) := by
  have inv := inv_reachable opts w h
  have hnil := clearRT_retryTimers_nil w inv.retry_tracked
  refine ⟨inv.retry_len, ?_, ?_, clearRT_of_none w⟩
  · intro j
    exact (inv_scheduleReconnect opts j w inv).retry_len
  · intro j oldId hold t ht
    by_cases hc : (clearReconnectTimeout w).hook.shouldReconnect = false ∨
        maxAttempts opts ≤ (clearReconnectTimeout w).hook.reconnectAttempts
    · rw [scheduleReconnect, if_pos hc] at ht
      simp [hnil] at ht
    · rw [scheduleReconnect, if_neg hc] at ht
      simp [hnil] at ht
      have hlt := inv.tracked_lt oldId hold
      rw [ht]
      simp
      omega

/-- Claim C9 witness: the run with one pending scheduled retry, plus the
safe no-op cancel on the fresh initial world. -/
theorem claim9_witness :
    Reachable opts3 schedWorld ∧
    schedWorld.env.retryTimers.length ≤ 1 ∧
    schedWorld.hook.reconnectTimeout = some 1 ∧
    (∀ t ∈ (scheduleReconnect opts3 0 schedWorld).env.retryTimers, t.id ≠ 1) ∧
    initWorld.hook.reconnectTimeout = none ∧
    clearReconnectTimeout initWorld = initWorld := by
  have hr : Reachable opts3 schedWorld :=
    Reachable.step (Event.poll ConnectionState.CONNECTING 0)
      (Reachable.step Event.connectCall Reachable.init)
  have h := claim9_single_retry_timer opts3 schedWorld hr
  exact ⟨hr, h.1, by decide, h.2.2.1 0 1 (by decide), rfl,
    (claim9_single_retry_timer opts3 initWorld Reachable.init).2.2.2 rfl⟩

/-! ## Claim theorems: disconnect -/

/-- Claim C4 counterexample: from the reachable state reached by the manual
`reconnect` (the public `connect`), calling `disconnect()` leaves one
pending timer — the untracked 100 ms settle timeout, which `disconnect`
cannot cancel; when it later fires it even re-invokes the transport's
`connect`, undoing the disconnect. -/
theorem claim4_counterexample :
    Reachable defaultOpts reconWorld ∧
    pendingTimerCount (disconnectFn reconWorld) = 1 ∧
    (stepFn defaultOpts Event.settleTimerFires (disconnectFn reconWorld)).env.connectCalls =
      (disconnectFn reconWorld).env.connectCalls + 1 := by
  exact ⟨Reachable.step Event.reconnectCall Reachable.init, by decide, by decide⟩

/-- Claim C4 as amended: `disconnect()` from any reachable state leaves zero
live subscriptions, zero retry timers and zero check intervals, suppresses
auto-reconnect, clears the in-flight flag and the tracked timeout, closes
the transport, resets the counter to 0, sets `DISCONNECTED` with
`isConnected = false` and no connection id, and invokes the on-disconnect
callback — but it does not cancel a pending 100 ms settle timeout armed by
a prior manual `reconnect` (the settle-timer list is left unchanged), so
the total pending-timer count need not be zero. -/
theorem claim4_disconnect_amended (opts : Options) (w : World) (h : Reachable opts w) :
    (disconnectFn w).hook.listeners = [] ∧
    (disconnectFn w).env.retryTimers = [] ∧
    (disconnectFn w).env.liveIntervals = [] ∧
    (disconnectFn w).env.settleTimers = w.env.settleTimers ∧
    (disconnectFn w).hook.shouldReconnect = false ∧
    (disconnectFn w).hook.reconnectTimeout = none ∧
    (disconnectFn w).hook.reconnectAttempts = 0 ∧
    (disconnectFn w).hook.connectionState = ConnectionState.DISCONNECTED ∧
    (disconnectFn w).hook.isConnected = false ∧
    (disconnectFn w).hook.connectionId = none ∧
    (disconnectFn w).env.wsDisconnectCalls = w.env.wsDisconnectCalls + 1 ∧
    (disconnectFn w).log.onDisconnectCalls = w.log.onDisconnectCalls + 1 := by
  obtain ⟨s1, s2, s3, s4, s5, s6, s7, s8, s9, s10, s11, s12, s13, s14⟩ :=
    disconnect_spec opts w (inv_reachable opts w h)
  exact ⟨s1, s3, s4, s5, s6, s8, s9, s10, s11, s12, s13, s14⟩

/-- Claim C4 witness: disconnect from the concrete connected world. -/
theorem claim4_witness :
    Reachable defaultOpts connectedWorld ∧
    (disconnectFn connectedWorld).hook.listeners = [] ∧
    (disconnectFn connectedWorld).env.retryTimers = [] ∧
    (disconnectFn connectedWorld).env.liveIntervals = [] ∧
    (disconnectFn connectedWorld).hook.connectionState = ConnectionState.DISCONNECTED ∧
    (disconnectFn connectedWorld).log.onDisconnectCalls =
      connectedWorld.log.onDisconnectCalls + 1 := by
  have hr : Reachable defaultOpts connectedWorld :=
    Reachable.step (Event.deliverMsg ackMsg) (Reachable.step Event.connectCall Reachable.init)
  have h := claim4_disconnect_amended defaultOpts connectedWorld hr
  exact ⟨hr, h.1, h.2.1, h.2.2.1, h.2.2.2.2.2.2.2.1, h.2.2.2.2.2.2.2.2.2.2.2⟩

end StellarWS
